import Mathlib

/-!
Verification of the blockchain-facing core of the Aframp backend
(Stellar ledger client, validators, configuration, trustline tracking,
wire-to-domain conversions), shallowly embedded from the Rust sources.

Strings are modelled as `List Char` (the sequence of Unicode scalar
values of a Rust `String`/`&str`); Rust `str::len` (a UTF-8 byte count)
is modelled by `rustLen` below.
-/

namespace Aframp

/-! ## Address validator — src/chains/stellar/types.rs -/

/-- Rust `str::len`: the UTF-8 byte length of the string. -/
def rustLen (s : List Char) : Nat := (s.map Char.utf8Size).sum

/-- Rust `str::starts_with('G')`: true iff the string is non-empty and its
first character is `'G'`. -/
def startsWithG : List Char → Bool
  | [] => false
  | c :: _ => c == 'G'

/-- `is_valid_stellar_address` (src/src/chains/stellar/types.rs:125-128):
`address.len() == 56 && address.starts_with('G') && address.chars().all(|c| c.is_ascii_alphanumeric())`.
Rust `char::is_ascii_alphanumeric` coincides with Lean `Char.isAlphanum`
(both accept exactly ASCII `0-9`, `A-Z`, `a-z`). -/
def is_valid_stellar_address (address : List Char) : Bool :=
  rustLen address == 56 && startsWithG address && address.all (fun c => c.isAlphanum)

/-- The canonical well-formed account id used by the repository's tests. -/
def canonical_account_id : List Char :=
  "GCJRI5CIWK5IU67Q6DGA7QW52JDKRO7JEAHQKFNDUJUPEZGURDBX3LDX".data

/-- An ASCII-alphanumeric character occupies a single UTF-8 byte. -/
theorem utf8Size_eq_one_of_isAlphanum (c : Char) (h : c.isAlphanum = true) :
    c.utf8Size = 1 := by
  simp [Char.isAlphanum, Char.isAlpha, Char.isUpper, Char.isLower, Char.isDigit,
    decide_eq_true_eq] at h
  unfold Char.utf8Size
  rcases h with (⟨h1, h2⟩ | ⟨h1, h2⟩) | ⟨h1, h2⟩ <;>
    · rw [if_pos]
      exact UInt32.le_trans h2 (by decide)

/-- On an all-alphanumeric string the UTF-8 byte length is the character count. -/
theorem rustLen_eq_length_of_all_alnum (s : List Char)
    (h : ∀ c ∈ s, c.isAlphanum = true) : rustLen s = s.length := by
  induction s with
  | nil => rfl
  | cons c t ih =>
      have hc : c.utf8Size = 1 :=
        utf8Size_eq_one_of_isAlphanum c (h c (List.mem_cons_self c t))
      have ht : rustLen t = t.length := ih fun x hx => h x (List.mem_cons_of_mem c hx)
      simp [rustLen, List.map_cons, List.sum_cons, hc] at *
      omega

/-- C1: `is_valid_account_id` (implemented as `is_valid_stellar_address`)
returns true iff the string has exactly 56 characters, starts with `'G'`,
and is entirely alphanumeric; and it accepts the canonical 56-character
example account id. -/
theorem is_valid_account_id_correct :
    (∀ s : List Char, is_valid_stellar_address s = true ↔
      (s.length = 56 ∧ s.head? = some 'G' ∧ ∀ c ∈ s, c.isAlphanum = true)) ∧
    is_valid_stellar_address canonical_account_id = true := by
  constructor
  · intro s
    constructor
    · intro h
      simp only [is_valid_stellar_address, Bool.and_eq_true, beq_iff_eq,
        List.all_eq_true] at h
      obtain ⟨⟨hlen, hstart⟩, halnum⟩ := h
      have hrl := rustLen_eq_length_of_all_alnum s halnum
      refine ⟨by omega, ?_, halnum⟩
      cases s with
      | nil => simp [startsWithG] at hstart
      | cons c t =>
          simp only [startsWithG, beq_iff_eq] at hstart
          simp [hstart]
    · rintro ⟨hlen, hhead, halnum⟩
      have hrl := rustLen_eq_length_of_all_alnum s halnum
      simp only [is_valid_stellar_address, Bool.and_eq_true, beq_iff_eq,
        List.all_eq_true]
      refine ⟨⟨by omega, ?_⟩, halnum⟩
      cases s with
      | nil => simp at hhead
      | cons c t =>
          simp only [List.head?_cons, Option.some_inj] at hhead
          simp [startsWithG, hhead]
  · decide

/-! ## Configuration — src/chains/stellar/config.rs -/

/-- Rust `std::time::Duration`: whole seconds (u64) plus a sub-second
nanosecond part (u32, < 10^9). -/
structure Duration where
  secs : Nat
  nanos : Nat
deriving DecidableEq, Repr

def Duration.from_secs (n : Nat) : Duration := ⟨n, 0⟩

/-- Rust `Duration::as_secs`: the whole-second part only. -/
def Duration.as_secs (d : Duration) : Nat := d.secs

/-- Total length of a duration in nanoseconds; `0 < toNanos d` states that the
duration is strictly positive. -/
def Duration.toNanos (d : Duration) : Nat := d.secs * 1000000000 + d.nanos

inductive StellarNetwork
  | Testnet
  | Mainnet
deriving DecidableEq, Repr

def StellarNetwork.horizon_url : StellarNetwork → List Char
  | .Testnet => "https://horizon-testnet.stellar.org".data
  | .Mainnet => "https://horizon.stellar.org".data

def StellarNetwork.network_passphrase : StellarNetwork → List Char
  | .Testnet => "Test SDF Network ; September 2015".data
  | .Mainnet => "Public Global Stellar Network ; September 2015".data

structure StellarConfig where
  network : StellarNetwork
  request_timeout : Duration
  max_retries : Nat
  health_check_interval : Duration
deriving DecidableEq, Repr

/-- `Default for StellarConfig` (src/src/chains/stellar/config.rs:36-45). -/
def StellarConfig.default : StellarConfig :=
  { network := .Testnet
    request_timeout := .from_secs 15
    max_retries := 3
    health_check_interval := .from_secs 30 }

/-- `StellarConfig::validate` (src/src/chains/stellar/config.rs:99-118):
bails when `as_secs() == 0` on either duration or `max_retries == 0`. -/
def StellarConfig.validate (c : StellarConfig) : Except (List Char) Unit :=
  if c.request_timeout.as_secs == 0 then
    .error "Request timeout must be greater than 0".data
  else if c.max_retries == 0 then
    .error "Max retries must be greater than 0".data
  else if c.health_check_interval.as_secs == 0 then
    .error "Health check interval must be greater than 0".data
  else
    .ok ()

/-! ## Amount parsing — src/services/fee_structure.rs -/

/-- Arbitrary-precision decimal as in the bigdecimal crate: an integer
mantissa and a base-10 scale, denoting intVal * 10 ^ (-scale). -/
structure BigDecimal where
  intVal : Int
  scale : Int
deriving DecidableEq, Repr

/-- `BigDecimal::from(0)`. -/
def BigDecimal.zero : BigDecimal := ⟨0, 0⟩

/-- Numeric value of a run of ASCII digits, most significant first. -/
def digitsVal (l : List Char) : Nat :=
  l.foldl (fun acc c => acc * 10 + (c.toNat - '0'.toNat)) 0

/-- Grammar shared by Rust's integer `FromStr` parsers (num `BigInt`, `i128`,
`i64`): an optional leading `'+'` or `'-'` followed by at least one ASCII
digit. -/
def parseSignedDigits (s : List Char) : Option Int :=
  match s with
  | [] => none
  | '+' :: rest =>
      if !rest.isEmpty && rest.all Char.isDigit then some (digitsVal rest) else none
  | '-' :: rest =>
      if !rest.isEmpty && rest.all Char.isDigit then some (-(digitsVal rest : Int)) else none
  | _ => if s.all Char.isDigit then some (digitsVal s) else none

/-- num-bigint `BigInt::from_str` (radix 10). -/
def parseBigInt (s : List Char) : Option Int := parseSignedDigits s

/-- `i128::from_str`: the signed-digits grammar plus the i128 range check. -/
def parseI128 (s : List Char) : Option Int :=
  match parseSignedDigits s with
  | some v => if -(2 ^ 127) ≤ v ∧ v ≤ 2 ^ 127 - 1 then some v else none
  | none => none

/-- `i64::from_str` (used by `str::parse::<i64>`): the signed-digits grammar
plus the i64 range check. -/
def parseI64 (s : List Char) : Option Int :=
  match parseSignedDigits s with
  | some v => if -(2 ^ 63) ≤ v ∧ v ≤ 2 ^ 63 - 1 then some v else none
  | none => none

/-- Split a string at the first character satisfying `p`: returns the parts
before and after that character (the character itself dropped), or `none`
when no character matches. -/
def breakAtFirst (p : Char → Bool) : List Char → Option (List Char × List Char)
  | [] => none
  | c :: t =>
      if p c then some ([], t)
      else
        match breakAtFirst p t with
        | some (a, b) => some (c :: a, b)
        | none => none

/-- Rust `as i64` on an i128 value: two's-complement wrapping into the
i64 range. -/
def wrapI64 (v : Int) : Int := (v + 2 ^ 63) % 2 ^ 64 - 2 ^ 63

/-- bigdecimal `BigDecimal::from_str` (via `from_str_radix(s, 10)`): split an
optional exponent at the first `'e'`/`'E'` (exponent parsed as i128), reject an
empty base, splice out the first `'.'` recording how many digits followed it,
parse the spliced digits as a big integer, and take scale =
(fraction length - exponent) cast `as i64`. -/
def BigDecimal.fromStr (s : List Char) : Option BigDecimal :=
  let parts :=
    match breakAtFirst (fun c => c == 'e' || c == 'E') s with
    | none => (s, some (0 : Int))
    | some (base, etail) => (base, parseI128 etail)
  match parts.2 with
  | none => none
  | some exp =>
      if parts.1.isEmpty then none
      else
        let spliced :=
          match breakAtFirst (fun c => c == '.') parts.1 with
          | none => (parts.1, (0 : Int))
          | some (lead, trail) => (lead ++ trail, (trail.length : Int))
        match parseBigInt spliced.1 with
        | none => none
        | some n => some ⟨n, wrapI64 (spliced.2 - exp)⟩

/-- `parse_amount` (src/src/services/fee_structure.rs:97-99):
`BigDecimal::from_str(amount).unwrap_or_else(|_| BigDecimal::from(0))`. -/
def parse_amount (amount : List Char) : BigDecimal :=
  (BigDecimal.fromStr amount).getD BigDecimal.zero

/-- C6: the default configuration selects the testnet, a 15 s request
timeout, 3 retries, and a 30 s health-check interval. -/
theorem default_config_values :
    StellarConfig.default.network = StellarNetwork.Testnet ∧
    StellarConfig.default.request_timeout = Duration.from_secs 15 ∧
    StellarConfig.default.max_retries = 3 ∧
    StellarConfig.default.health_check_interval = Duration.from_secs 30 :=
  ⟨rfl, rfl, rfl, rfl⟩

/-- A configuration with a strictly positive (0.5 s) request timeout and the
default retries and health interval. -/
def subsecond_timeout_config : StellarConfig :=
  { network := .Testnet
    request_timeout := ⟨0, 500000000⟩
    max_retries := 3
    health_check_interval := .from_secs 30 }

/-- C3 counterexample: a request timeout of 0.5 s is strictly greater than
zero, and retries and health interval are positive too, yet `validate`
rejects the configuration — the code compares whole seconds
(`as_secs() == 0`), not the duration itself. -/
theorem validate_rejects_positive_subsecond_timeout :
    0 < subsecond_timeout_config.request_timeout.toNanos ∧
    0 < subsecond_timeout_config.max_retries ∧
    0 < subsecond_timeout_config.health_check_interval.toNanos ∧
    StellarConfig.validate subsecond_timeout_config =
      Except.error "Request timeout must be greater than 0".data :=
  ⟨by decide, by decide, by decide, rfl⟩

/-- C3 amended: `validate` succeeds iff the whole-second part of the request
timeout is > 0, the maximum retry count is > 0, and the whole-second part of
the health-check interval is > 0; a positive sub-second duration is
rejected because only whole seconds are inspected. -/
theorem validate_ok_iff (c : StellarConfig) :
    StellarConfig.validate c = Except.ok () ↔
      (0 < c.request_timeout.as_secs ∧ 0 < c.max_retries ∧
        0 < c.health_check_interval.as_secs) := by
  by_cases h1 : c.request_timeout.as_secs = 0 <;>
    by_cases h2 : c.max_retries = 0 <;>
      by_cases h3 : c.health_check_interval.as_secs = 0 <;>
        simp [StellarConfig.validate, h1, h2, h3, Nat.pos_iff_ne_zero]

/-- C2: `parse_amount` is total and never fails: a string accepted by the
decimal parser yields its parsed value, every malformed input yields the
zero value, and in particular `"100.5000000"` is carried through exactly
while `"abc"` and the empty string map to zero. -/
theorem parse_amount_total_lenient :
    (∀ s : List Char,
      (∃ v, BigDecimal.fromStr s = some v ∧ parse_amount s = v) ∨
      (BigDecimal.fromStr s = none ∧ parse_amount s = BigDecimal.zero)) ∧
    parse_amount "100.5000000".data = ⟨1005000000, 7⟩ ∧
    parse_amount "abc".data = BigDecimal.zero ∧
    parse_amount "".data = BigDecimal.zero := by
  refine ⟨?_, by decide, by decide, by decide⟩
  intro s
  cases h : BigDecimal.fromStr s with
  | none => exact Or.inr ⟨rfl, by simp [parse_amount, h]⟩
  | some v => exact Or.inl ⟨v, rfl, by simp [parse_amount, h]⟩

/-! ## Wire and domain account types — src/chains/stellar/types.rs -/

structure Thresholds where
  low_threshold : Nat
  med_threshold : Nat
  high_threshold : Nat
deriving DecidableEq, Repr

structure AccountFlags where
  auth_required : Bool
  auth_revocable : Bool
  auth_immutable : Bool
  auth_clawback_enabled : Bool
deriving DecidableEq, Repr

structure Signer where
  key : List Char
  weight : Nat
  type : List Char
deriving DecidableEq, Repr

/-- Domain `AssetBalance` (types.rs:33-43); `last_modified_ledger` is a u32. -/
structure AssetBalance where
  asset_type : List Char
  asset_code : Option (List Char)
  asset_issuer : Option (List Char)
  balance : List Char
  limit : List Char
  is_authorized : Bool
  is_authorized_to_maintain_liabilities : Bool
  last_modified_ledger : Option Nat
deriving DecidableEq, Repr

/-- Wire-level `HorizonBalance` (types.rs:68-78); `last_modified_ledger` is
a u64. -/
structure HorizonBalance where
  asset_type : List Char
  asset_code : Option (List Char)
  asset_issuer : Option (List Char)
  balance : List Char
  limit : List Char
  is_authorized : Bool
  is_authorized_to_maintain_liabilities : Bool
  last_modified_ledger : Option Nat
deriving DecidableEq, Repr

/-- Wire-level `HorizonAccount` (types.rs:52-66): `sequence` is a string,
`last_modified_ledger` a u64, `created_at` optional. The `_links` JSON map,
dropped by the conversion, is not modelled; the `data` map is modelled as an
association list. -/
structure HorizonAccount where
  id : List Char
  account_id : List Char
  sequence : List Char
  subentry_count : Nat
  thresholds : Thresholds
  flags : AccountFlags
  balances : List HorizonBalance
  signers : List Signer
  data : List (List Char × List Char)
  last_modified_ledger : Nat
  created_at : Option (List Char)
deriving DecidableEq, Repr

/-- Domain `StellarAccountInfo` (types.rs:4-16): `sequence` is an i64,
`last_modified_ledger` a u32, `created_at` a plain string. -/
structure StellarAccountInfo where
  account_id : List Char
  sequence : Int
  subentry_count : Nat
  thresholds : Thresholds
  flags : AccountFlags
  balances : List AssetBalance
  signers : List Signer
  data : List (List Char × List Char)
  last_modified_ledger : Nat
  created_at : List Char
deriving DecidableEq, Repr

/-- `From<HorizonBalance> for AssetBalance` (types.rs:110-123); the Rust
narrowing `v as u32` on the optional ledger number is truncation mod 2^32. -/
def AssetBalance.fromHorizon (balance : HorizonBalance) : AssetBalance :=
  { asset_type := balance.asset_type
    asset_code := balance.asset_code
    asset_issuer := balance.asset_issuer
    balance := balance.balance
    limit := balance.limit
    is_authorized := balance.is_authorized
    is_authorized_to_maintain_liabilities := balance.is_authorized_to_maintain_liabilities
    last_modified_ledger := balance.last_modified_ledger.map (fun v => v % 2 ^ 32) }

/-- `From<HorizonAccount> for StellarAccountInfo` (types.rs:89-108):
`sequence.parse().unwrap_or(0)`, balances mapped entrywise,
`last_modified_ledger as u32`, and `created_at.unwrap_or_else(|| now)` where
`now` is the current clock reading, passed explicitly here. -/
def StellarAccountInfo.fromHorizon (now : List Char) (account : HorizonAccount) :
    StellarAccountInfo :=
  { account_id := account.account_id
    sequence := (parseI64 account.sequence).getD 0
    subentry_count := account.subentry_count
    thresholds := account.thresholds
    flags := account.flags
    balances := account.balances.map AssetBalance.fromHorizon
    signers := account.signers
    data := account.data
    last_modified_ledger := account.last_modified_ledger % 2 ^ 32
    created_at := account.created_at.getD now }

/-- The closure passed to `find` inside `extract_afri_balance`:
`balance.asset_type == "credit_alphanum4" && balance.asset_code.as_ref().map_or(false, |code| code == "AFRI")`. -/
def isAfriEntry (balance : AssetBalance) : Bool :=
  balance.asset_type == "credit_alphanum4".data &&
    (match balance.asset_code with
      | some code => code == "AFRI".data
      | none => false)

/-- `extract_afri_balance` (types.rs:130-138): finds the first balance entry
whose `asset_type` is `"credit_alphanum4"` and whose `asset_code` is
`"AFRI"`, returning its balance string. -/
def extract_afri_balance (balances : List AssetBalance) : Option (List Char) :=
  (balances.find? isAfriEntry).map fun balance => balance.balance

/-- The search predicate of `extract_afri_balance`, as a proposition. -/
theorem afri_pred_eq (b : AssetBalance) :
    isAfriEntry b = true ↔
    (b.asset_type = "credit_alphanum4".data ∧ b.asset_code = some ("AFRI".data)) := by
  cases h : b.asset_code with
  | none => simp [isAfriEntry, h]
  | some code => simp [isAfriEntry, h]

/-- A balance entry that carries the AFRI asset code, but under the
12-character credit asset type rather than `credit_alphanum4`. -/
def afri_alphanum12_entry : AssetBalance :=
  { asset_type := "credit_alphanum12".data
    asset_code := some ("AFRI".data)
    asset_issuer := some ("GISSUER".data)
    balance := "25.0".data
    limit := "1000".data
    is_authorized := true
    is_authorized_to_maintain_liabilities := true
    last_modified_ledger := none }

/-- C5 counterexample: a list holding one entry whose `asset_code` is `AFRI`
(under asset type `credit_alphanum12`) makes `extract_afri_balance` return
`none`, so `none` is not equivalent to "no entry carries the asset code" —
the scan also requires asset type `credit_alphanum4`. -/
theorem extract_afri_balance_skips_alphanum12 :
    afri_alphanum12_entry.asset_code = some ("AFRI".data) ∧
    extract_afri_balance [afri_alphanum12_entry] = none :=
  ⟨rfl, by decide⟩

/-- C5 amended: `extract_afri_balance` returns the balance string of an entry
whose asset type is `credit_alphanum4` and whose asset code is `AFRI`, and
returns `none` iff no entry satisfies both conditions at once (so in
particular an account holding no entry with the asset code yields `none`). -/
theorem extract_afri_balance_spec (bs : List AssetBalance) :
    (extract_afri_balance bs = none ↔
      ∀ b ∈ bs, ¬(b.asset_type = "credit_alphanum4".data ∧
        b.asset_code = some ("AFRI".data))) ∧
    (∀ v, extract_afri_balance bs = some v →
      ∃ b ∈ bs, b.asset_type = "credit_alphanum4".data ∧
        b.asset_code = some ("AFRI".data) ∧ b.balance = v) := by
  constructor
  · rw [extract_afri_balance, Option.map_eq_none', List.find?_eq_none]
    exact forall_congr' fun b => forall_congr' fun hb => not_congr (afri_pred_eq b)
  · intro v hv
    rw [extract_afri_balance] at hv
    obtain ⟨b, hfind, hbal⟩ := Option.map_eq_some'.mp hv
    have hmem := List.mem_of_find?_eq_some hfind
    have hp : isAfriEntry b = true := List.find?_some hfind
    have hpred := (afri_pred_eq b).mp hp
    exact ⟨b, hmem, hpred.1, hpred.2, hbal⟩

/-- C9: the wire-to-domain account conversion is total: an unparseable
sequence string becomes 0, a parseable one keeps its value, and the balances
list is converted entry by entry, preserving length and order. -/
theorem horizon_account_conversion_total (now : List Char) (a : HorizonAccount) :
    (parseI64 a.sequence = none → (StellarAccountInfo.fromHorizon now a).sequence = 0) ∧
    (∀ v, parseI64 a.sequence = some v →
      (StellarAccountInfo.fromHorizon now a).sequence = v) ∧
    (StellarAccountInfo.fromHorizon now a).balances =
      a.balances.map AssetBalance.fromHorizon ∧
    (StellarAccountInfo.fromHorizon now a).balances.length = a.balances.length := by
  refine ⟨fun h => ?_, fun v h => ?_, rfl, by simp [StellarAccountInfo.fromHorizon]⟩
  · simp [StellarAccountInfo.fromHorizon, h]
  · simp [StellarAccountInfo.fromHorizon, h]

/-- A wire balance entry whose ledger number exceeds the u32 range. -/
def large_ledger_balance : HorizonBalance :=
  { asset_type := "native".data
    asset_code := none
    asset_issuer := none
    balance := "10".data
    limit := "0".data
    is_authorized := true
    is_authorized_to_maintain_liabilities := true
    last_modified_ledger := some (2 ^ 32 + 5) }

/-- C10: both conversions narrow `last_modified_ledger` by truncation modulo
2^32; a wire value of 2^32 + 5 silently becomes 5 rather than being
rejected. -/
theorem last_modified_ledger_truncation (now : List Char) (a : HorizonAccount)
    (b : HorizonBalance) :
    (StellarAccountInfo.fromHorizon now a).last_modified_ledger =
      a.last_modified_ledger % 2 ^ 32 ∧
    (AssetBalance.fromHorizon b).last_modified_ledger =
      b.last_modified_ledger.map (fun v => v % 2 ^ 32) ∧
    (AssetBalance.fromHorizon large_ledger_balance).last_modified_ledger = some 5 :=
  ⟨rfl, rfl, by decide⟩

/-! ## Trustline operation tracking —
src/database/trustline_operation_repository.rs and
src/services/trustline_operation.rs -/

/-- A stored `trustline_operations` row (repository.rs:9-22). `metadata`
(a JSON value) is carried opaquely as a string; timestamps are abstract
ticks. -/
structure TrustlineOperation where
  id : Nat
  wallet_address : List Char
  asset_code : List Char
  issuer : Option (List Char)
  operation_type : List Char
  status : List Char
  transaction_hash : Option (List Char)
  error_message : Option (List Char)
  metadata : List Char
  created_at : Nat
  updated_at : Nat
deriving DecidableEq, Repr

/-- The `trustline_operations` table. -/
abbrev TrustlineTable := List TrustlineOperation

namespace TrustlineOperationRepository

/-- `create_operation` (repository.rs:35-63): INSERT of a new row; the
database supplies the fresh id and the timestamps (`freshId`, `nowTime`
here), the caller supplies every other column — including the status. -/
def create_operation (tbl : TrustlineTable) (freshId nowTime : Nat)
    (wallet_address asset_code : List Char) (issuer : Option (List Char))
    (operation_type status : List Char)
    (transaction_hash error_message : Option (List Char))
    (metadata : List Char) : TrustlineTable × TrustlineOperation :=
  let row : TrustlineOperation :=
    { id := freshId
      wallet_address := wallet_address
      asset_code := asset_code
      issuer := issuer
      operation_type := operation_type
      status := status
      transaction_hash := transaction_hash
      error_message := error_message
      metadata := metadata
      created_at := nowTime
      updated_at := nowTime }
  (tbl ++ [row], row)

/-- `update_status` (repository.rs:66-86): UPDATE of status, transaction
hash, error message and `updated_at` on the row with the given id,
unconditionally on its current status; `fetch_one` fails (`none`) when no
row has the id. -/
def update_status (tbl : TrustlineTable) (nowTime id : Nat)
    (status : List Char) (transaction_hash error_message : Option (List Char)) :
    Option (TrustlineTable × TrustlineOperation) :=
  match tbl.find? (fun r => r.id == id) with
  | none => none
  | some r =>
      let updated := { r with
        status := status
        transaction_hash := transaction_hash
        error_message := error_message
        updated_at := nowTime }
      some (tbl.map (fun q => if q.id == id then updated else q), updated)

/-- `delete` (repository.rs:187-199): DELETE FROM trustline_operations WHERE
id = $1, reporting whether any row was removed (`rows_affected() > 0`). -/
def delete (tbl : TrustlineTable) (id : Nat) : Bool × TrustlineTable :=
  let remaining := tbl.filter (fun r => r.id != id)
  (decide (remaining.length < tbl.length), remaining)

end TrustlineOperationRepository

/-- `TrustlineOperationService::record_create` (service.rs:34-50): delegates
to `create_operation` with operation type `"create"` and the caller-supplied
input status. -/
def record_create (tbl : TrustlineTable) (freshId nowTime : Nat)
    (wallet_address asset_code : List Char) (issuer : Option (List Char))
    (status : List Char) (transaction_hash error_message : Option (List Char))
    (metadata : List Char) : TrustlineTable × TrustlineOperation :=
  TrustlineOperationRepository.create_operation tbl freshId nowTime
    wallet_address asset_code issuer ("create".data) status
    transaction_hash error_message metadata

/-- A fresh-created demo row (status `"pending"`, id 1) and its table. -/
def demo_created : TrustlineTable × TrustlineOperation :=
  record_create [] 1 0 ("GSOURCE".data) ("AFRI".data) none ("pending".data)
    none none ("null".data)

/-- The demo table after marking operation 1 completed. -/
def demo_completed : Option (TrustlineTable × TrustlineOperation) :=
  TrustlineOperationRepository.update_status demo_created.1 5 1
    ("completed".data) (some ("abcd".data)) none

/-- The completed demo table after a second status update, back to pending. -/
def demo_reverted : Option (TrustlineTable × TrustlineOperation) :=
  (demo_completed.map Prod.fst).bind fun tbl =>
    TrustlineOperationRepository.update_status tbl 9 1 ("pending".data) none none

/-- C4 counterexample: with one stored record (created pending, id 1),
`delete` reports a row removed and leaves the table empty — the core does
expose an operation that removes a stored trustline operation record — and
`update_status` accepts a second transition after the record has left
`pending`, moving it from `completed` back to `pending`. -/
theorem trustline_record_deleted_and_retransitioned :
    demo_created.2.status = "pending".data ∧
    TrustlineOperationRepository.delete demo_created.1 1 = (true, []) ∧
    (demo_completed.map fun p => p.2.status) = some ("completed".data) ∧
    (demo_reverted.map fun p => p.2.status) = some ("pending".data) := by
  refine ⟨rfl, by decide, by decide, by decide⟩

/-- C4 amended: a record is created with whatever status the caller supplies
(the service passes the input status through); `update_status` overwrites the
status of an existing record unconditionally — any number of further
transitions remain possible after leaving pending — and the repository's
`delete` removes the stored record with the given id while keeping every
other record. -/
theorem trustline_lifecycle_unenforced :
    (∀ tbl freshId nowTime wa ac iss st th em md,
      (record_create tbl freshId nowTime wa ac iss st th em md).2.status = st ∧
      (record_create tbl freshId nowTime wa ac iss st th em md).2.operation_type =
        "create".data) ∧
    (∀ tbl nowTime id st th em out,
      TrustlineOperationRepository.update_status tbl nowTime id st th em = some out →
        out.2.status = st) ∧
    (∀ tbl id, ∀ r ∈ (TrustlineOperationRepository.delete tbl id).2, r.id ≠ id) ∧
    (∀ tbl id r, r ∈ tbl → r.id ≠ id →
      r ∈ (TrustlineOperationRepository.delete tbl id).2) := by
  refine ⟨fun tbl freshId nowTime wa ac iss st th em md => ⟨rfl, rfl⟩, ?_, ?_, ?_⟩
  · intro tbl nowTime id st th em out h
    unfold TrustlineOperationRepository.update_status at h
    cases hf : tbl.find? (fun r => r.id == id) with
    | none => rw [hf] at h; cases h
    | some r => rw [hf] at h; cases h; rfl
  · intro tbl id r hr
    have := List.of_mem_filter hr
    simpa using this
  · intro tbl id r hmem hne
    exact List.mem_filter.mpr ⟨hmem, by simpa using hne⟩

/-! ## Ledger client — src/chains/stellar/client.rs and errors.rs are
declared by mod.rs but absent from the sources, so the operations below are
modelled from the spec (§4.3, §7, §8) and from their uses in tests.rs and
main.rs. -/

/-- The client's typed error taxonomy for account lookup, as matched by
tests.rs and listed in §7 of the spec. -/
inductive StellarError
  | InvalidAddress (address : List Char)
  | AccountNotFound (address : List Char)
  | NetworkError (message : List Char)
  | TimeoutError (message : List Char)
deriving DecidableEq, Repr

/-- The gateway's resolved outcome for one account-lookup request, after the
client's bounded retry loop has run its course. -/
inductive GatewayLookup
  | found (account : HorizonAccount)
  | notFound
  | transportFailure (message : List Char)
  | timedOut (message : List Char)

/-- Modelled from the spec: `StellarClient::get_account` (client.rs is
missing). Per §4.3 it fails `InvalidAddress` when the syntactic validator
rejects the identifier, before any network interaction; otherwise it maps the
gateway's outcome: not-found to `AccountNotFound`, transport failure to
`NetworkError` and timeout to `TimeoutError` (both after retry exhaustion),
and converts a found wire account to the domain type. -/
def get_account (gateway : List Char → GatewayLookup) (now : List Char)
    (id : List Char) : Except StellarError StellarAccountInfo :=
  if !is_valid_stellar_address id then .error (.InvalidAddress id)
  else
    match gateway id with
    | .found account => .ok (StellarAccountInfo.fromHorizon now account)
    | .notFound => .error (.AccountNotFound id)
    | .transportFailure m => .error (.NetworkError m)
    | .timedOut m => .error (.TimeoutError m)

/-- Modelled from the spec: `StellarClient::account_exists` (client.rs is
missing) — "same error taxonomy as above except that AccountNotFound is
converted to `Ok(false)`, not propagated as an error" (§4.3). -/
def account_exists (gateway : List Char → GatewayLookup) (now : List Char)
    (id : List Char) : Except StellarError Bool :=
  match get_account gateway now id with
  | .ok _ => .ok true
  | .error (.AccountNotFound _) => .ok false
  | .error e => .error e

/-- C7: `account_exists` never returns `AccountNotFound`: a not-found account
becomes `Ok(false)`, a found one `Ok(true)`, and every other error
(`InvalidAddress`, `NetworkError`, `TimeoutError`) propagates exactly as from
`get_account`. -/
theorem account_exists_never_account_not_found
    (gateway : List Char → GatewayLookup) (now id : List Char) :
    (∀ a, account_exists gateway now id ≠
      Except.error (StellarError.AccountNotFound a)) ∧
    (∀ a, get_account gateway now id = Except.error (StellarError.AccountNotFound a) →
      account_exists gateway now id = Except.ok false) ∧
    (∀ m, get_account gateway now id = Except.error (StellarError.NetworkError m) →
      account_exists gateway now id = Except.error (StellarError.NetworkError m)) ∧
    (∀ m, get_account gateway now id = Except.error (StellarError.TimeoutError m) →
      account_exists gateway now id = Except.error (StellarError.TimeoutError m)) ∧
    (∀ a, get_account gateway now id = Except.error (StellarError.InvalidAddress a) →
      account_exists gateway now id = Except.error (StellarError.InvalidAddress a)) ∧
    (∀ acct, get_account gateway now id = Except.ok acct →
      account_exists gateway now id = Except.ok true) := by
  unfold account_exists
  cases hga : get_account gateway now id with
  | ok acct => refine ⟨by simp, ?_, ?_, ?_, ?_, ?_⟩ <;> intro x hx <;> simp_all
  | error e =>
      cases e <;>
        · refine ⟨by simp, ?_, ?_, ?_, ?_, ?_⟩ <;> intro x hx <;> simp_all

/-! ## Payment signing — src/services/afri_payment_builder.rs is referenced
by main.rs but absent from the sources; the signer is modelled from the spec
(§3, §4.5, §8). -/

inductive PaymentMemo
  | none
  | text (value : List Char)
  | id (value : Nat)
  | hash (value : List Char)
deriving DecidableEq, Repr

/-- The immutable draft produced by `build_payment` (§3): source,
destination, amount string, asset code and issuer, memo, fee in stroops, and
the sequence number captured at build time. -/
structure PaymentTransactionDraft where
  source : List Char
  destination : List Char
  amount : List Char
  asset_code : List Char
  asset_issuer : List Char
  memo : PaymentMemo
  fee_stroops : Nat
  sequence_number : Int
deriving DecidableEq, Repr

/-- The signed result (§3): the binary-safe envelope and its hash. -/
structure SignedPaymentTransaction where
  envelope_xdr : List Nat
  transaction_hash : List Nat
deriving DecidableEq, Repr

/-- The Unicode scalar values of a string, used as its byte rendering. -/
def strBytes (s : List Char) : List Nat := s.map Char.toNat

/-- Modelled from the spec: the memo variant's rendering in the envelope. -/
def memoBytes : PaymentMemo → List Nat
  | .none => [0]
  | .text value => 1 :: strBytes value
  | .id value => [2, value]
  | .hash value => 3 :: strBytes value

/-- Modelled from the spec: the canonical binary transaction envelope
payload — a field-separated flattening of every draft field, prefixed by the
network passphrase so the envelope is bound to the network (§4.5). -/
def envelopePayload (net : StellarNetwork) (draft : PaymentTransactionDraft) :
    List Nat :=
  strBytes net.network_passphrase ++ [0] ++
    strBytes draft.source ++ [0] ++ strBytes draft.destination ++ [0] ++
    strBytes draft.amount ++ [0] ++ strBytes draft.asset_code ++ [0] ++
    strBytes draft.asset_issuer ++ [0] ++ memoBytes draft.memo ++ [0] ++
    [draft.fee_stroops, draft.sequence_number.toNat, (-draft.sequence_number).toNat]

/-- Modelled from the spec: a deterministic digest of a byte sequence,
standing in for the transaction-hash computation. -/
def digest (bytes : List Nat) : List Nat :=
  [bytes.foldl (fun acc b => (acc * 131 + b) % 1000000007) 5381, bytes.length]

/-- Modelled from the spec: a Stellar secret seed is well-formed when it is a
56-character alphanumeric strkey beginning with `'S'`; a malformed seed makes
signing fail (§4.5). -/
def isValidSeed (seed : List Char) : Bool :=
  seed.length == 56 &&
    (match seed with
      | c :: _ => c == 'S'
      | [] => false) &&
    seed.all Char.isAlphanum

/-- Modelled from the spec: the signature over the envelope payload — a pure
function of the seed-derived key and the message; the deterministic signing
algorithm introduces no randomness (§8). -/
def signaturePayload (seed : List Char) (message : List Nat) : List Nat :=
  digest (strBytes seed ++ [255] ++ message)

/-- Modelled from the spec: `AfriPaymentBuilder::sign_transaction`
(afri_payment_builder.rs is missing) — derives the signing key from the
seed, constructs the canonical envelope bound to the network passphrase,
signs it and serializes; fails with a signing error on a malformed seed;
performs no network I/O. The `entropy` argument models the ambient process
randomness available at call time; per §8 the signer never consults it. -/
def sign_transaction (_entropy : Nat → Nat) (net : StellarNetwork)
    (draft : PaymentTransactionDraft) (secret_seed : List Char) :
    Except (List Char) SignedPaymentTransaction :=
  if isValidSeed secret_seed then
    let payload := envelopePayload net draft
    .ok { envelope_xdr := payload ++ signaturePayload secret_seed payload
          transaction_hash := digest payload }
  else
    .error ("SigningError: invalid secret seed".data)

/-- C8: signing is deterministic: two invocations on the same draft and seed,
under arbitrary — even different — ambient entropy, return the same result;
in particular, when both succeed they produce identical envelope bytes and
identical transaction hashes. -/
theorem sign_transaction_deterministic (entropy1 entropy2 : Nat → Nat)
    (net : StellarNetwork) (draft : PaymentTransactionDraft)
    (seed : List Char) :
    sign_transaction entropy1 net draft seed =
      sign_transaction entropy2 net draft seed ∧
    (∀ s1 s2, sign_transaction entropy1 net draft seed = Except.ok s1 →
      sign_transaction entropy2 net draft seed = Except.ok s2 →
      s1.envelope_xdr = s2.envelope_xdr ∧
        s1.transaction_hash = s2.transaction_hash) := by
  refine ⟨rfl, ?_⟩
  intro s1 s2 h1 h2
  cases h1.symm.trans h2
  exact ⟨rfl, rfl⟩

end Aframp
